import Mathlib

/-!
Verification development for the zerogamma analysis pipeline.

The repository is a small Python program (config.py, fmp_data.py,
openrouter_analysis.py, telegram_sender.py, send_analysis.py) that fetches a
market metric, fetches price history, asks a language model for a structured
narrative, formats it, and dispatches it to a messaging channel.

This file gives a shallow embedding of the pure computational content of that
code.  Network calls and other effects are modelled as explicit inputs
(oracles / outcome values); Python exceptions are modelled with `Except`;
Python numbers are modelled with `Rat` / `Int` / `Nat`.  Each definition is a
direct translation of the corresponding Python function, keeping the source
name where Lean allows it.
-/

/-! ## Python string primitives used by the source -/

/-- Characters for which Python `str.isspace` holds (the code points that can
actually occur in this program: ASCII whitespace, the C1/Unicode space set). -/
def pyIsSpace (c : Char) : Bool :=
  c = ' ' || c = '\t' || c = '\n' || c = '\x0b' || c = '\x0c' || c = '\r' ||
  c = '\x1c' || c = '\x1d' || c = '\x1e' || c = '\x1f' || c = '\x85' ||
  c = '\xa0' || c = '\u1680' ||
  ('\u2000' ≤ c && c ≤ '\u200a') ||
  c = '\u2028' || c = '\u2029' || c = '\u202f' || c = '\u205f' || c = '\u3000'

/-- Python `str.lstrip()` on a list of characters. -/
def pyLStripList (cs : List Char) : List Char :=
  cs.dropWhile pyIsSpace

/-- Python `str.lstrip()`. -/
def pyLStrip (s : String) : String :=
  String.mk (pyLStripList s.data)

/-- Python `str.strip()` (drop whitespace at both ends). -/
def pyStrip (s : String) : String :=
  String.mk ((pyLStripList s.data).reverse.dropWhile pyIsSpace |>.reverse)

/-- Line-break characters recognised by Python `str.splitlines`. -/
def pyIsLineBreak (c : Char) : Bool :=
  c = '\n' || c = '\r' || c = '\x0b' || c = '\x0c' ||
  c = '\x1c' || c = '\x1d' || c = '\x1e' || c = '\x85' ||
  c = ' ' || c = ' '

/-- Python `str.splitlines` on characters: split at line breaks, treating
`"\r\n"` as a single break, and produce no trailing empty line. -/
def pySplitlinesAux (acc : List Char) : List Char → List String
  | [] => if acc.isEmpty then [] else [String.mk acc.reverse]
  | '\r' :: '\n' :: rest => String.mk acc.reverse :: pySplitlinesAux [] rest
  | c :: rest =>
      if pyIsLineBreak c then String.mk acc.reverse :: pySplitlinesAux [] rest
      else pySplitlinesAux (c :: acc) rest

/-- Python `str.splitlines`. -/
def pySplitlines (s : String) : List String :=
  pySplitlinesAux [] s.data

/-! ## A model of parsed JSON values

`json.loads` produces nested dicts/lists/strings/numbers/bools/None; the model
uses exact rationals for numbers (binary floating point is out of scope for
the properties treated here). -/

inductive JsonVal where
  | null : JsonVal
  | bool (b : Bool) : JsonVal
  | num (q : ℚ) : JsonVal
  | str (s : String) : JsonVal
  | arr (l : List JsonVal) : JsonVal
  | obj (fields : List (String × JsonVal)) : JsonVal

/-- Python `dict.get(key)` on an association list (keys are unique in a
Python dict, so the first hit is the value). -/
def jdictGet (fields : List (String × JsonVal)) (key : String) : Option JsonVal :=
  match fields with
  | [] => none
  | (k, v) :: rest => if k = key then some v else jdictGet rest key

/-- Python `key in dict` on the association-list model. -/
def jdictHas (fields : List (String × JsonVal)) (key : String) : Bool :=
  fields.any (fun p => p.1 = key)

/-! ## config.py -/

/-- The `required_vars` list of `config.get_config`. -/
def configRequiredVars : List String :=
  ["FMP_API_KEY", "OPENROUTER_API_KEY", "TELEGRAM_BOT_TOKEN", "TELEGRAM_CHAT_ID"]

/-- The required variables that are missing or empty in an environment
(`os.getenv` returning `None` and the empty string are both falsy). -/
def configMissingVars (env : String → Option String) : List String :=
  configRequiredVars.filter (fun v => ((env v).getD "") = "")

/-- The `ValueError` message raised by `get_config` for a missing-variable
list. -/
def configErrorMsg (missing : List String) : String :=
  "Missing required environment variables: " ++ String.intercalate ", " missing ++
  ". Please set them in your .env file or export them as environment variables."

/-- `config.get_config`: read the four required variables from the
environment; collect the falsy ones and raise `ValueError` naming them, else
return the configuration dictionary. -/
def get_config (env : String → Option String) : Except String (List (String × String)) :=
  let missing_vars := configMissingVars env
  if missing_vars.isEmpty then
    .ok (configRequiredVars.filterMap
      (fun v => (env v).bind (fun s => if s = "" then none else some (v, s))))
  else
    .error (configErrorMsg missing_vars)

/-- `send_analysis.main`, modelled over an environment and an oracle for
`run_analysis_pipeline` (which in the source returns a `bool` and never
raises): a configuration `ValueError` is caught and mapped to exit code 1,
otherwise the pipeline runs and its boolean selects exit code 0 or 1. -/
def mainExitCode (env : String → Option String)
    (run : List (String × String) → Bool) : Nat :=
  match get_config env with
  | .error _ => 1
  | .ok config => if run config then 0 else 1

/-! ## send_analysis.py: the signed-request builder (`_b64url`, `_jwt_hs256`)

The builder uses the Python standard library (`json.dumps` with compact
separators, `base64.urlsafe_b64encode` with padding stripped, `hmac` with
`hashlib.sha256`, `str.encode` i.e. UTF-8).  Those library functions are
embedded below by their standard definitions; bytes are `Nat` values < 256. -/

/-- UTF-8 encoding of one code point. -/
def utf8Char (c : Char) : List Nat :=
  let n := c.toNat
  if n < 128 then [n]
  else if n < 2048 then [192 + n / 64, 128 + n % 64]
  else if n < 65536 then [224 + n / 4096, 128 + (n / 64) % 64, 128 + n % 64]
  else [240 + n / 262144, 128 + (n / 4096) % 64, 128 + (n / 64) % 64, 128 + n % 64]

/-- Python `str.encode("utf-8")`. -/
def utf8Bytes (s : String) : List Nat :=
  (s.data.map utf8Char).flatten

/-- Lower-case hexadecimal digit. -/
def hexDigitChar (n : Nat) : Char :=
  "0123456789abcdef".data.getD n '0'

/-- One `\uXXXX` escape, as produced by `json.dumps` with `ensure_ascii`. -/
def jsonUEscape (n : Nat) : List Char :=
  ['\\', 'u', hexDigitChar (n / 4096 % 16), hexDigitChar (n / 256 % 16),
   hexDigitChar (n / 16 % 16), hexDigitChar (n % 16)]

/-- `json.dumps` escaping of a single character (default `ensure_ascii=True`:
everything outside the printable ASCII range becomes `\uXXXX`, astral code
points become a surrogate pair). -/
def jsonEscapeChar (c : Char) : List Char :=
  if c = '"' then ['\\', '"']
  else if c = '\\' then ['\\', '\\']
  else if c = '\n' then ['\\', 'n']
  else if c = '\r' then ['\\', 'r']
  else if c = '\t' then ['\\', 't']
  else if c.toNat = 8 then ['\\', 'b']
  else if c.toNat = 12 then ['\\', 'f']
  else if 32 ≤ c.toNat && c.toNat ≤ 126 then [c]
  else if c.toNat < 65536 then jsonUEscape c.toNat
  else jsonUEscape (55296 + (c.toNat - 65536) / 1024) ++
       jsonUEscape (56320 + (c.toNat - 65536) % 1024)

/-- `json.dumps` of a string value. -/
def jsonStr (s : String) : String :=
  "\"" ++ String.mk ((s.data.map jsonEscapeChar).flatten) ++ "\""

/-- `json.dumps` of a number: integers print exactly; other rationals print
as an exact finite decimal when one exists (the floats the program serialises
are modelled by such rationals). -/
def jsonNum (q : ℚ) : String :=
  if q.den = 1 then toString q.num
  else
    match (List.range 28).find? (fun k => q.den ∣ 10 ^ k) with
    | some k =>
        let a := (q.num * ((10 ^ k : ℕ) / q.den : ℕ)).natAbs
        let sign := if q.num < 0 then "-" else ""
        let fs := Nat.toDigits 10 (a % 10 ^ k)
        let padded := List.replicate (k - fs.length) '0' ++ fs
        let trimmed := (padded.reverse.dropWhile (· = '0')).reverse
        sign ++ toString (a / 10 ^ k) ++ "." ++
          (if trimmed.isEmpty then "0" else String.mk trimmed)
    | none => toString q.num ++ "/" ++ toString q.den

mutual

/-- `json.dumps(v, separators=(",", ":"))`. -/
def jsonDumpsVal : JsonVal → String
  | .null => "null"
  | .bool true => "true"
  | .bool false => "false"
  | .num q => jsonNum q
  | .str s => jsonStr s
  | .arr l => "[" ++ jsonDumpsArr l ++ "]"
  | .obj l => "\x7b" ++ jsonDumpsObj l ++ "\x7d"

/-- Comma-joined serialisation of the elements of a JSON array. -/
def jsonDumpsArr : List JsonVal → String
  | [] => ""
  | [v] => jsonDumpsVal v
  | v :: w :: rest => jsonDumpsVal v ++ "," ++ jsonDumpsArr (w :: rest)

/-- Comma-joined serialisation of the fields of a JSON object. -/
def jsonDumpsObj : List (String × JsonVal) → String
  | [] => ""
  | [(k, v)] => jsonStr k ++ ":" ++ jsonDumpsVal v
  | (k, v) :: w :: rest => jsonStr k ++ ":" ++ jsonDumpsVal v ++ "," ++ jsonDumpsObj (w :: rest)

end

/-- The URL-safe base64 alphabet used by `base64.urlsafe_b64encode`. -/
def b64urlAlphabet : String :=
  "ABCDEFGHIJKLMNOPQRSTUVWXYZabcdefghijklmnopqrstuvwxyz0123456789-_"

/-- Index into the URL-safe base64 alphabet. -/
def b64Char (i : Nat) : Char :=
  b64urlAlphabet.data.getD i 'A'

/-- Character stream of `base64.urlsafe_b64encode` with the `=` padding
already stripped (the source applies `.rstrip(b"=")`). -/
def b64urlChars : List Nat → List Char
  | b1 :: b2 :: b3 :: rest =>
      b64Char (b1 / 4) ::
      b64Char ((b1 % 4) * 16 + b2 / 16) ::
      b64Char ((b2 % 16) * 4 + b3 / 64) ::
      b64Char (b3 % 64) :: b64urlChars rest
  | [b1, b2] => [b64Char (b1 / 4), b64Char ((b1 % 4) * 16 + b2 / 16), b64Char ((b2 % 16) * 4)]
  | [b1] => [b64Char (b1 / 4), b64Char ((b1 % 4) * 16)]
  | [] => []

/-- `send_analysis._b64url`: URL-safe base64 without padding. -/
def _b64url (data : List Nat) : String :=
  String.mk (b64urlChars data)

/-- 2^32, the word modulus of SHA-256. -/
def word32 : Nat := 4294967296

/-- Rotate a 32-bit word right by `n` bits. -/
def rotr32 (n x : Nat) : Nat :=
  ((x >>> n) ||| (x <<< (32 - n))) % word32

/-- The SHA-256 round constants (FIPS 180-4), written in decimal. -/
def sha256K : List Nat :=
  [1116352408, 1899447441, 3049323471, 3921009573, 961987163,
   1508970993, 2453635748, 2870763221, 3624381080, 310598401,
   607225278, 1426881987, 1925078388, 2162078206, 2614888103,
   3248222580, 3835390401, 4022224774, 264347078, 604807628,
   770255983, 1249150122, 1555081692, 1996064986, 2554220882,
   2821834349, 2952996808, 3210313671, 3336571891, 3584528711,
   113926993, 338241895, 666307205, 773529912, 1294757372,
   1396182291, 1695183700, 1986661051, 2177026350, 2456956037,
   2730485921, 2820302411, 3259730800, 3345764771, 3516065817,
   3600352804, 4094571909, 275423344, 430227734, 506948616,
   659060556, 883997877, 958139571, 1322822218, 1537002063,
   1747873779, 1955562222, 2024104815, 2227730452, 2361852424,
   2428436474, 2756734187, 3204031479, 3329325298]

/-- The SHA-256 initial hash state (FIPS 180-4), written in decimal. -/
def sha256H0 : List Nat :=
  [1779033703, 3144134277, 1013904242, 2773480762,
   1359893119, 2600822924, 528734635, 1541459225]

/-- Big-endian bytes of a 64-bit length. -/
def be64 (n : Nat) : List Nat :=
  [(n >>> 56) % 256, (n >>> 48) % 256, (n >>> 40) % 256, (n >>> 32) % 256,
   (n >>> 24) % 256, (n >>> 16) % 256, (n >>> 8) % 256, n % 256]

/-- SHA-256 message padding: a 0x80 byte, zeros to 56 mod 64, then the
big-endian 64-bit bit length. -/
def sha256Pad (msg : List Nat) : List Nat :=
  msg ++ 0x80 :: List.replicate ((119 - msg.length % 64) % 64) 0 ++ be64 (8 * msg.length)

/-- Group bytes into big-endian 32-bit words. -/
def bytesToWordsBE : List Nat → List Nat
  | b1 :: b2 :: b3 :: b4 :: rest =>
      (((b1 * 256 + b2) * 256 + b3) * 256 + b4) :: bytesToWordsBE rest
  | _ => []

/-- Big-endian bytes of a 32-bit word. -/
def wordToBytesBE (w : Nat) : List Nat :=
  [(w >>> 24) % 256, (w >>> 16) % 256, (w >>> 8) % 256, w % 256]

/-- Split a byte string into 64-byte blocks. -/
def chunksOf64 : List Nat → List (List Nat)
  | [] => []
  | b :: rest => ((b :: rest).take 64) :: chunksOf64 ((b :: rest).drop 64)
termination_by l => l.length
decreasing_by simp [List.length_drop]; omega

/-- Extend a partial SHA-256 message schedule by one word. -/
def sha256ExtendStep (ws : List Nat) : List Nat :=
  let n := ws.length
  let w15 := ws.getD (n - 15) 0
  let w2 := ws.getD (n - 2) 0
  let s0 := (rotr32 7 w15) ^^^ (rotr32 18 w15) ^^^ (w15 >>> 3)
  let s1 := (rotr32 17 w2) ^^^ (rotr32 19 w2) ^^^ (w2 >>> 10)
  ws ++ [(ws.getD (n - 16) 0 + s0 + ws.getD (n - 7) 0 + s1) % word32]

/-- The full 64-word message schedule of one block. -/
def sha256Schedule (chunkWords : List Nat) : List Nat :=
  (List.range 48).foldl (fun ws _ => sha256ExtendStep ws) chunkWords

/-- One SHA-256 compression round on the working state `[a,b,c,d,e,f,g,h]`
with a (round constant, schedule word) pair. -/
def sha256Round (st : List Nat) (kw : Nat × Nat) : List Nat :=
  match st with
  | [a, b, c, d, e, f, g, h] =>
      let S1 := (rotr32 6 e) ^^^ (rotr32 11 e) ^^^ (rotr32 25 e)
      let ch := (e &&& f) ^^^ ((4294967295 ^^^ e) &&& g)
      let temp1 := (h + S1 + ch + kw.1 + kw.2) % word32
      let S0 := (rotr32 2 a) ^^^ (rotr32 13 a) ^^^ (rotr32 22 a)
      let maj := (a &&& b) ^^^ (a &&& c) ^^^ (b &&& c)
      let temp2 := (S0 + maj) % word32
      [(temp1 + temp2) % word32, a, b, c, (d + temp1) % word32, e, f, g]
  | other => other

/-- Process one 64-byte block into the running hash state. -/
def sha256Chunk (hs : List Nat) (chunk : List Nat) : List Nat :=
  let ws := sha256Schedule (bytesToWordsBE chunk)
  let st := (sha256K.zip ws).foldl sha256Round hs
  (hs.zip st).map (fun p => (p.1 + p.2) % word32)

/-- `hashlib.sha256(msg).digest()`: the 32-byte SHA-256 digest. -/
def sha256 (msg : List Nat) : List Nat :=
  (((chunksOf64 (sha256Pad msg)).foldl sha256Chunk sha256H0).map wordToBytesBE).flatten

/-- `hmac.new(key, msg, hashlib.sha256).digest()` (RFC 2104 with a 64-byte
block size). -/
def hmacSha256 (key msg : List Nat) : List Nat :=
  let k0 := if key.length > 64 then sha256 key else key
  let k := k0 ++ List.replicate (64 - k0.length) 0
  sha256 ((k.map (fun b => b ^^^ 92)) ++ sha256 ((k.map (fun b => b ^^^ 54)) ++ msg))

/-- The fixed JWT header `{"alg": "HS256", "typ": "JWT"}` of `_jwt_hs256`. -/
def jwtHeaderFields : List (String × JsonVal) :=
  [("alg", .str "HS256"), ("typ", .str "JWT")]

/-- Python `dict.setdefault(key, value)` on the association-list model:
insert at the end only when the key is absent. -/
def pySetdefault (d : List (String × JsonVal)) (k : String) (v : JsonVal) :
    List (String × JsonVal) :=
  if jdictHas d k then d else d ++ [(k, v)]

/-- `send_analysis._jwt_hs256`: build the HS256-signed token.  The impure
`int(time.time())` is passed in as `now`. -/
def _jwt_hs256 (payload : List (String × JsonVal)) (secret : String) (now : Nat) : String :=
  let payload2 := pySetdefault payload "iat" (.num (now : ℚ))
  let header_part := _b64url (utf8Bytes (jsonDumpsVal (.obj jwtHeaderFields)))
  let payload_part := _b64url (utf8Bytes (jsonDumpsVal (.obj payload2)))
  let signature := hmacSha256 (utf8Bytes secret) (utf8Bytes (header_part ++ "." ++ payload_part))
  header_part ++ "." ++ payload_part ++ "." ++ _b64url signature

/-- The header segment of every token built by `_jwt_hs256`. -/
def jwtHeaderPart : String :=
  _b64url (utf8Bytes (jsonDumpsVal (.obj jwtHeaderFields)))

/-- The payload segment of the token built by `_jwt_hs256` for a claim set
and an issue time. -/
def jwtPayloadPart (payload : List (String × JsonVal)) (now : Nat) : String :=
  _b64url (utf8Bytes (jsonDumpsVal (.obj (pySetdefault payload "iat" (.num (now : ℚ))))))

theorem getD_mem_or (l : List Char) (i : Nat) (d : Char) :
    l.getD i d ∈ l ∨ l.getD i d = d := by
  induction l generalizing i with
  | nil => right; cases i <;> rfl
  | cons a t ih =>
      cases i with
      | zero => left; simp [List.getD]
      | succ n =>
          have : (a :: t).getD (n + 1) d = t.getD n d := rfl
          rw [this]
          rcases ih n with h | h
          · left; exact List.mem_cons_of_mem _ h
          · right; exact h

theorem b64Char_valid (i : Nat) : b64Char i ≠ '.' ∧ b64Char i ≠ '=' := by
  have h := getD_mem_or b64urlAlphabet.data i 'A'
  unfold b64Char
  rcases h with h | h
  · constructor <;> (intro he; rw [he] at h; revert h; decide)
  · rw [h]; decide

theorem b64urlChars_valid (bs : List Nat) : ∀ c ∈ b64urlChars bs, c ≠ '.' ∧ c ≠ '=' := by
  induction bs using b64urlChars.induct with
  | case1 b1 b2 b3 rest ih =>
      intro c hc
      simp only [b64urlChars, List.mem_cons] at hc
      rcases hc with rfl | rfl | rfl | rfl | hc
      · exact b64Char_valid _
      · exact b64Char_valid _
      · exact b64Char_valid _
      · exact b64Char_valid _
      · exact ih c hc
  | case2 b1 b2 =>
      intro c hc
      simp only [b64urlChars, List.mem_cons, List.not_mem_nil, or_false] at hc
      rcases hc with rfl | rfl | rfl <;> exact b64Char_valid _
  | case3 b1 =>
      intro c hc
      simp only [b64urlChars, List.mem_cons, List.not_mem_nil, or_false] at hc
      rcases hc with rfl | rfl <;> exact b64Char_valid _
  | case4 => intro c hc; simp [b64urlChars] at hc

theorem b64url_valid (bs : List Nat) : ∀ c ∈ (_b64url bs).data, c ≠ '.' ∧ c ≠ '=' :=
  b64urlChars_valid bs

/-- C2: `_jwt_hs256` produces a token of three dot-separated segments, each a
padding-free base64url string (no `.` and no `=` occurs in any segment); the
payload segment encodes the claim set with an `iat` field appended only when
absent; and the signature segment is the base64url encoding of the
HMAC-SHA256, keyed by the secret, of the header and payload segments joined
by a dot.  Determinism is inherent: the builder is a pure function of the
claim set, the secret and the timestamp. -/
theorem jwt_hs256_spec (payload : List (String × JsonVal)) (secret : String) (now : Nat) :
    _jwt_hs256 payload secret now =
      jwtHeaderPart ++ "." ++ jwtPayloadPart payload now ++ "." ++
        _b64url (hmacSha256 (utf8Bytes secret)
          (utf8Bytes (jwtHeaderPart ++ "." ++ jwtPayloadPart payload now)))
    ∧ jwtPayloadPart payload now =
        _b64url (utf8Bytes (jsonDumpsVal (.obj (pySetdefault payload "iat" (.num (now : ℚ))))))
    ∧ pySetdefault payload "iat" (.num (now : ℚ)) =
        (if jdictHas payload "iat" then payload else payload ++ [("iat", .num (now : ℚ))])
    ∧ (∀ c ∈ jwtHeaderPart.data, c ≠ '.' ∧ c ≠ '=')
    ∧ (∀ c ∈ (jwtPayloadPart payload now).data, c ≠ '.' ∧ c ≠ '=')
    ∧ (∀ c ∈ (_b64url (hmacSha256 (utf8Bytes secret)
          (utf8Bytes (jwtHeaderPart ++ "." ++ jwtPayloadPart payload now)))).data,
        c ≠ '.' ∧ c ≠ '=') := by
  refine ⟨rfl, rfl, rfl, b64url_valid _, b64url_valid _, b64url_valid _⟩

theorem filterMap_env_eq (l : List String) (env : String → Option String)
    (h : ∀ v ∈ l, ((env v).getD "") ≠ "") :
    l.filterMap (fun v => (env v).bind (fun s => if s = "" then none else some (v, s)))
      = l.map (fun v => (v, (env v).getD "")) := by
  induction l with
  | nil => rfl
  | cons a t ih =>
      have ha := h a (List.mem_cons_self a t)
      have ht := fun v hv => h v (List.mem_cons_of_mem a hv)
      simp only [List.filterMap_cons, List.map_cons]
      cases hv : env a with
      | none => simp [hv] at ha
      | some s =>
          have hs : s ≠ "" := by simpa [hv] using ha
          simp [hv, hs, ih ht]

/-- C8: if any of the four required secrets is missing or empty, `get_config`
raises the fatal configuration error naming exactly the missing variables and
`main` exits with code 1 without consulting the pipeline (the exit code is
the same for every pipeline oracle, so no network step is reached); if all
four are present and non-empty, loading succeeds and returns all four
name/value pairs, and the exit code is 0 or 1 according to the pipeline
result. -/
theorem get_config_main_spec (env : String → Option String)
    (run run' : List (String × String) → Bool) :
    (configMissingVars env ≠ [] →
        get_config env = .error (configErrorMsg (configMissingVars env))
        ∧ mainExitCode env run = 1
        ∧ mainExitCode env run = mainExitCode env run')
    ∧ (configMissingVars env = [] →
        get_config env = .ok (configRequiredVars.map (fun v => (v, (env v).getD "")))
        ∧ mainExitCode env run =
            (if run (configRequiredVars.map (fun v => (v, (env v).getD ""))) then 0 else 1)) := by
  constructor
  · intro h
    have he : (configMissingVars env).isEmpty = false := by
      cases hc : configMissingVars env with
      | nil => exact absurd hc h
      | cons a t => rfl
    have hg : get_config env = .error (configErrorMsg (configMissingVars env)) := by
      unfold get_config
      simp [he]
    refine ⟨hg, ?_, ?_⟩ <;> simp [mainExitCode, hg]
  · intro h
    have hall : ∀ v ∈ configRequiredVars, ((env v).getD "") ≠ "" := by
      intro v hv hveq
      have : v ∈ configMissingVars env := by
        unfold configMissingVars
        exact List.mem_filter.2 ⟨hv, by simp [hveq]⟩
      rw [h] at this
      exact absurd this (List.not_mem_nil v)
    have he : (configMissingVars env).isEmpty = true := by rw [h]; rfl
    have hg : get_config env = .ok (configRequiredVars.map (fun v => (v, (env v).getD ""))) := by
      unfold get_config
      simp only [he, if_true]
      rw [filterMap_env_eq _ _ hall]
    exact ⟨hg, by simp [mainExitCode, hg]⟩

theorem get_config_main_spec_witness :
    mainExitCode (fun _ => none) (fun _ => true) = 1
    ∧ get_config (fun v => some v)
      = .ok [("FMP_API_KEY", "FMP_API_KEY"), ("OPENROUTER_API_KEY", "OPENROUTER_API_KEY"),
             ("TELEGRAM_BOT_TOKEN", "TELEGRAM_BOT_TOKEN"),
             ("TELEGRAM_CHAT_ID", "TELEGRAM_CHAT_ID")] := by
  constructor
  · exact ((get_config_main_spec (fun _ => none) (fun _ => true) (fun _ => true)).1
      (by decide)).2.1
  · have h := ((get_config_main_spec (fun v => some v) (fun _ => true) (fun _ => true)).2
      (by decide)).1
    rw [h]; rfl

/-! ## Python exceptions

The exception classes that the sources raise or catch, as one error type. -/

inductive PyExn where
  | timeout
  | httpError (status : Nat)
  | requestException (msg : String)
  | valueError (msg : String)
  | typeError (msg : String)
  | keyError (msg : String)
  | attributeError (msg : String)
deriving Repr, DecidableEq

/-! ## fmp_data.py -/

/-- One record of the FMP historical list.  Each field is optional because
the source reads them with `record.get(field, default)`; `open` is a Lean
keyword, so the price fields carry a `Price` suffix. -/
structure PriceRecord where
  date : Option String
  openPrice : Option ℚ
  highPrice : Option ℚ
  lowPrice : Option ℚ
  closePrice : Option ℚ
deriving Repr, DecidableEq

/-- Round `num / den` (with `den ≠ 0`) to the nearest integer, ties to even
(the rounding of Python `format(x, ".2f")`). -/
def roundHalfEven (num den : Nat) : Nat :=
  let n := num / den
  let rem2 := 2 * (num % den)
  if rem2 > den then n + 1
  else if rem2 < den then n
  else if n % 2 = 0 then n else n + 1

/-- Two-digit zero-padded decimal. -/
def twoDigits (m : Nat) : String :=
  if m < 10 then "0" ++ toString m else toString m

/-- Python `f"{q:.2f}"` for a non-negative rational: round `q * 100` half to
even (computed on the reduced numerator and denominator) and print with two
decimal places. -/
def formatFixed2Aux (q : ℚ) : String :=
  let n := roundHalfEven (q.num.toNat * 100) q.den
  toString (n / 100) ++ "." ++ twoDigits (n % 100)

/-- Python `f"{q:.2f}"`: fixed-point rendering with two decimal places. -/
def formatFixed2 (q : ℚ) : String :=
  if q < 0 then "-" ++ formatFixed2Aux (-q) else formatFixed2Aux q

/-- Lexicographic comparison of character lists by code point: the order
Python uses to compare strings. -/
def strLe : List Char → List Char → Bool
  | [], _ => true
  | _ :: _, [] => false
  | a :: as, b :: bs =>
      if a.toNat < b.toNat then true
      else if b.toNat < a.toNat then false
      else strLe as bs

theorem strLe_total : ∀ as bs : List Char, strLe as bs = true ∨ strLe bs as = true := by
  intro as
  induction as with
  | nil => intro bs; left; rfl
  | cons a as2 ih =>
      intro bs
      cases bs with
      | nil => right; rfl
      | cons b bs2 =>
          by_cases h1 : a.toNat < b.toNat
          · left; simp [strLe, h1]
          · by_cases h2 : b.toNat < a.toNat
            · right; simp [strLe, h2]
            · rcases ih bs2 with h | h
              · left; simp [strLe, h1, h2, h]
              · right; simp [strLe, h1, h2, h]

theorem strLe_trans : ∀ as bs cs : List Char,
    strLe as bs = true → strLe bs cs = true → strLe as cs = true := by
  intro as
  induction as with
  | nil => intro bs cs _ _; rfl
  | cons a as2 ih =>
      intro bs cs hab hbc
      cases bs with
      | nil => simp [strLe] at hab
      | cons b bs2 =>
          cases cs with
          | nil => simp [strLe] at hbc
          | cons c cs2 =>
              simp only [strLe] at hab hbc ⊢
              by_cases h1 : a.toNat < b.toNat <;> by_cases h2 : b.toNat < c.toNat <;>
                by_cases h3 : a.toNat < c.toNat <;>
                  simp only [h1, h2, h3, if_true, if_false] at hab hbc ⊢ <;>
                    first
                      | rfl
                      | omega
                      | (by_cases h4 : b.toNat < a.toNat <;>
                           by_cases h5 : c.toNat < b.toNat <;>
                             by_cases h6 : c.toNat < a.toNat <;>
                               simp only [h4, h5, h6, if_true, if_false] at hab hbc ⊢ <;>
                                 first
                                   | rfl
                                   | omega
                                   | exact ih bs2 cs2 hab hbc
                                   | simp at hab
                                   | simp at hbc)

/-- The sort key relation of `sorted(historical, key=lambda x: x["date"])`:
compare the date strings by code point (every record has a date by the time
the sort runs, see `fetch_spx_ohlc_csv`). -/
def dateLe (a b : PriceRecord) : Prop :=
  strLe (a.date.getD "").data (b.date.getD "").data = true

instance instDecidableRelDateLe : DecidableRel dateLe := fun _ _ =>
  inferInstanceAs (Decidable (_ = true))

instance : IsTotal PriceRecord dateLe :=
  ⟨fun a b => strLe_total (a.date.getD "").data (b.date.getD "").data⟩

instance : IsTrans PriceRecord dateLe :=
  ⟨fun _ _ _ hab hbc => strLe_trans _ _ _ hab hbc⟩

/-- `sorted(historical, key=lambda x: x["date"])`: a stable sort by the date
key (insertion sort computes the same list as any stable sort by the same
key). -/
def sortedByDate (historical : List PriceRecord) : List PriceRecord :=
  List.insertionSort dateLe historical

/-- The sort-then-trim step of `fetch_spx_ohlc_csv`: Python
`historical[-days:]` keeps the last `days` entries when `days > 0` but the
WHOLE list when `days = 0` (since `l[-0:]` is `l[0:]`). -/
def sortedTrimmed (historical : List PriceRecord) (days : Nat) : List PriceRecord :=
  if (sortedByDate historical).length > days then
    (if days = 0 then sortedByDate historical
     else (sortedByDate historical).drop ((sortedByDate historical).length - days))
  else sortedByDate historical

/-- One CSV line of `fetch_spx_ohlc_csv`:
`f"{date},{open:.2f},{high:.2f},{low:.2f},{close:.2f}"` with each field read
by `record.get(_, default)`. -/
def renderBar (r : PriceRecord) : String :=
  r.date.getD "" ++ "," ++ formatFixed2 (r.openPrice.getD 0) ++ "," ++
  formatFixed2 (r.highPrice.getD 0) ++ "," ++ formatFixed2 (r.lowPrice.getD 0) ++ "," ++
  formatFixed2 (r.closePrice.getD 0)

/-- `float(historical[-1].get("close", 0))` over the trimmed bar list. -/
def latestClose (bars : List PriceRecord) : ℚ :=
  match bars.getLast? with
  | none => 0
  | some r => r.closePrice.getD 0

/-- The response-processing part of `fmp_data.fetch_spx_ohlc_csv`, as a
function of the decoded historical list: raise `ValueError` on an empty
list; raise `KeyError` when any record lacks the `date` key (Python `sorted`
evaluates the key function on every element); otherwise sort ascending by
date, trim with `[-days:]`, read the latest close, and render the CSV. -/
def fetch_spx_ohlc_csv (historical : List PriceRecord) (days : Nat) :
    Except PyExn (String × ℚ) :=
  if historical.isEmpty then
    .error (.valueError "No historical data returned from FMP for symbol ^GSPC")
  else if historical.any (fun r => r.date.isNone) then
    .error (.keyError "date")
  else
    let bars := sortedTrimmed historical days
    .ok (String.intercalate "\n" ("Date,Open,High,Low,Close" :: bars.map renderBar),
         latestClose bars)

/-- Days-since-epoch to Gregorian (year, month, day), for dates at or after
1970-01-01 (the only dates the program forms). -/
def civilFromDays (z : Nat) : Nat × Nat × Nat :=
  let z2 := z + 719468
  let era := z2 / 146097
  let doe := z2 % 146097
  let yoe := (doe - doe / 1460 + doe / 36524 - doe / 146096) / 365
  let y := yoe + era * 400
  let doy := doe - (365 * yoe + yoe / 4 - yoe / 100)
  let mp := (5 * doy + 2) / 153
  let d := doy - (153 * mp + 2) / 5 + 1
  let m := if mp < 10 then mp + 3 else mp - 9
  (if m ≤ 2 then y + 1 else y, m, d)

/-- Two-digit zero-padded field of an ISO date. -/
def pad2 (n : Nat) : String :=
  if n < 10 then "0" ++ toString n else toString n

/-- Four-digit zero-padded year of an ISO date. -/
def pad4 (n : Nat) : String :=
  if n < 10 then "000" ++ toString n
  else if n < 100 then "00" ++ toString n
  else if n < 1000 then "0" ++ toString n
  else toString n

/-- `datetime.date.isoformat()` for a days-since-epoch value. -/
def dateIso (z : Nat) : String :=
  let c := civilFromDays z
  pad4 c.1 ++ "-" ++ pad2 c.2.1 ++ "-" ++ pad2 c.2.2

/-- The hardcoded `symbol = "^GSPC"` of `fetch_spx_ohlc_csv`. -/
def fmpSymbol : String := "^GSPC"

/-- The query parameters `fetch_spx_ohlc_csv` sends to the price provider:
the hardcoded SPX ticker, a date range reaching `max(days * 2, 45)` days
back from today, and the API key.  `today` is the impure
`datetime.now(timezone.utc).date()` in days since the epoch. -/
def fmp_request_params (api_key : String) (days : Nat) (today : Nat) :
    List (String × String) :=
  [("symbol", fmpSymbol),
   ("from", dateIso (today - max (days * 2) 45)),
   ("to", dateIso today),
   ("apikey", api_key)]

theorem string_append_assoc (a b c : String) : a ++ b ++ c = a ++ (b ++ c) := by
  apply String.ext
  simp [List.append_assoc]

theorem getLast?_of_ne_nil {α : Type} (l : List α) (h : l ≠ []) :
    ∃ r, l.getLast? = some r := by
  induction l with
  | nil => exact absurd rfl h
  | cons a t ih =>
      cases t with
      | nil => exact ⟨a, rfl⟩
      | cons b u =>
          obtain ⟨r, hr⟩ := ih (by simp)
          exact ⟨r, by rw [List.getLast?_cons_cons]; exact hr⟩

theorem sortedByDate_length (l : List PriceRecord) :
    (sortedByDate l).length = l.length :=
  (List.perm_insertionSort dateLe l).length_eq

theorem sortedByDate_mem {l : List PriceRecord} {b : PriceRecord}
    (h : b ∈ sortedByDate l) : b ∈ l :=
  (List.perm_insertionSort dateLe l).mem_iff.1 h

theorem sortedTrimmed_sublist (l : List PriceRecord) (days : Nat) :
    List.Sublist (sortedTrimmed l days) (sortedByDate l) := by
  unfold sortedTrimmed
  split
  · split
    · exact List.Sublist.refl _
    · exact List.drop_sublist _ _
  · exact List.Sublist.refl _

theorem sortedTrimmed_length_pos (l : List PriceRecord) (days : Nat)
    (hne : l ≠ []) (hdays : 1 ≤ days) :
    0 < (sortedTrimmed l days).length := by
  have hlen := sortedByDate_length l
  have hpos : 0 < l.length := List.length_pos.2 hne
  unfold sortedTrimmed
  by_cases h : (sortedByDate l).length > days
  · rw [if_pos h, if_neg (by omega : ¬ days = 0), List.length_drop]
    omega
  · rw [if_neg h]
    omega

theorem twoDigits_facts :
    ∀ m < 100, (twoDigits m).length = 2 ∧ (twoDigits m).data.all Char.isDigit = true := by
  decide

/-- C3 (amended): for every non-empty list of price bars (each bearing a
date) and every requested day count of at least 1, in any input ordering,
the renderer succeeds and returns the header line plus one comma-separated
line per retained bar with prices formatted to two decimal places, together
with the close of the last retained bar; the retained bars are sorted
NON-strictly ascending by date (bars with equal dates are all kept — the
source performs no deduplication) and number at most the requested count
(the count bound needs `days ≥ 1` because Python `[-0:]` keeps the whole
list). -/
theorem fetch_spx_ohlc_csv_spec (historical : List PriceRecord) (days : Nat)
    (hne : historical ≠ []) (hdates : ∀ r ∈ historical, r.date ≠ none)
    (hdays : 1 ≤ days) :
    ∃ r, (sortedTrimmed historical days).getLast? = some r
      ∧ fetch_spx_ohlc_csv historical days =
          .ok (String.intercalate "\n"
                ("Date,Open,High,Low,Close" :: (sortedTrimmed historical days).map renderBar),
               r.closePrice.getD 0)
      ∧ List.Sorted dateLe (sortedTrimmed historical days)
      ∧ (sortedTrimmed historical days).length ≤ days
      ∧ (sortedTrimmed historical days).length ≤ historical.length
      ∧ (∀ b ∈ sortedTrimmed historical days, b ∈ historical)
      ∧ (∀ q : ℚ, ∃ ip m, m < 100 ∧ formatFixed2 q = ip ++ "." ++ twoDigits m
            ∧ (twoDigits m).length = 2 ∧ (twoDigits m).data.all Char.isDigit = true) := by
  have hlenS := sortedByDate_length historical
  have hpos := sortedTrimmed_length_pos historical days hne hdays
  obtain ⟨r, hr⟩ : ∃ r, (sortedTrimmed historical days).getLast? = some r :=
    getLast?_of_ne_nil _ (by intro hnil; rw [hnil] at hpos; simp at hpos)
  refine ⟨r, hr, ?_, ?_, ?_, ?_, ?_, ?_⟩
  · have h1 : historical.isEmpty = false := by
      cases historical with
      | nil => exact absurd rfl hne
      | cons a t => rfl
    have h2 : historical.any (fun r => r.date.isNone) = false := by
      rw [List.any_eq_false]
      intro x hx
      cases hd : x.date with
      | none => exact absurd hd (hdates x hx)
      | some d => simp [hd]
    unfold fetch_spx_ohlc_csv
    simp only [h1, Bool.false_eq_true, if_false, h2]
    unfold latestClose
    rw [hr]
  · exact (List.sorted_insertionSort dateLe historical).sublist
      (sortedTrimmed_sublist historical days)
  · unfold sortedTrimmed
    by_cases h : (sortedByDate historical).length > days
    · rw [if_pos h, if_neg (by omega : ¬ days = 0), List.length_drop]
      omega
    · rw [if_neg h]
      omega
  · have := (sortedTrimmed_sublist historical days).length_le
    omega
  · intro b hb
    exact sortedByDate_mem ((sortedTrimmed_sublist historical days).subset hb)
  · intro q
    by_cases hq : q < 0
    · refine ⟨"-" ++ toString (roundHalfEven ((-q).num.toNat * 100) (-q).den / 100),
        roundHalfEven ((-q).num.toNat * 100) (-q).den % 100, Nat.mod_lt _ (by omega), ?_, ?_, ?_⟩
      · unfold formatFixed2 formatFixed2Aux
        rw [if_pos hq]
        simp only [string_append_assoc]
      · exact (twoDigits_facts _ (Nat.mod_lt _ (by omega))).1
      · exact (twoDigits_facts _ (Nat.mod_lt _ (by omega))).2
    · refine ⟨toString (roundHalfEven (q.num.toNat * 100) q.den / 100),
        roundHalfEven (q.num.toNat * 100) q.den % 100, Nat.mod_lt _ (by omega), ?_, ?_, ?_⟩
      · unfold formatFixed2 formatFixed2Aux
        rw [if_neg hq]
      · exact (twoDigits_facts _ (Nat.mod_lt _ (by omega))).1
      · exact (twoDigits_facts _ (Nat.mod_lt _ (by omega))).2

theorem fetch_spx_ohlc_csv_spec_witness :
    List.Sorted dateLe (sortedTrimmed [PriceRecord.mk (some "2024-01-03") (some 1) (some 1) (some 1) (some 1)] 5)
    ∧ (sortedTrimmed [PriceRecord.mk (some "2024-01-03") (some 1) (some 1) (some 1) (some 1)] 5).length ≤ 5 := by
  obtain ⟨r, hr, heq, hs, hlen, _⟩ :=
    fetch_spx_ohlc_csv_spec [PriceRecord.mk (some "2024-01-03") (some 1) (some 1) (some 1) (some 1)]
      5 (by decide) (by decide) (by decide)
  exact ⟨hs, hlen⟩

instance instDecidableEqExceptModel {e a : Type} [DecidableEq e] [DecidableEq a] :
    DecidableEq (Except e a) := fun x y =>
  match x, y with
  | .ok v, .ok w =>
      if h : v = w then isTrue (by rw [h]) else isFalse (by intro hc; cases hc; exact h rfl)
  | .error v, .error w =>
      if h : v = w then isTrue (by rw [h]) else isFalse (by intro hc; cases hc; exact h rfl)
  | .ok _, .error _ => isFalse (by intro hc; cases hc)
  | .error _, .ok _ => isFalse (by intro hc; cases hc)

/-- Two bars sharing the date 2024-01-02 (differing in close). -/
def dupBarA : PriceRecord := ⟨some "2024-01-02", some 1, some 2, some 1, some 3⟩

/-- Second bar with the same date as `dupBarA`. -/
def dupBarB : PriceRecord := ⟨some "2024-01-02", some 1, some 2, some 1, some 4⟩

/-- A single well-formed bar. -/
def oneBar : PriceRecord := ⟨some "2024-01-03", some 1, some 1, some 1, some 1⟩

/-- C3 counterexample: the renderer neither deduplicates by date nor makes
the dates strictly ascending — two distinct bars with the same date are both
retained and both rendered — and with a requested day count of 0 the whole
list is kept (Python `[-0:]`), exceeding the requested count. -/
theorem fetch_spx_ohlc_csv_counterexample :
    sortedTrimmed [dupBarA, dupBarB] 30 = [dupBarA, dupBarB]
    ∧ dupBarA.date = dupBarB.date ∧ dupBarA ≠ dupBarB
    ∧ ¬ List.Pairwise (fun a b => a.date.getD "" ≠ b.date.getD "")
        (sortedTrimmed [dupBarA, dupBarB] 30)
    ∧ (sortedTrimmed [oneBar] 0).length = 1
    ∧ fetch_spx_ohlc_csv [dupBarA, dupBarB] 30 =
        .ok ("Date,Open,High,Low,Close\n2024-01-02,1.00,2.00,1.00,3.00\n2024-01-02,1.00,2.00,1.00,4.00",
             4) := by
  refine ⟨by decide, rfl, by decide, ?_, by decide, by decide⟩
  intro h
  rw [(by decide : sortedTrimmed [dupBarA, dupBarB] 30 = [dupBarA, dupBarB])] at h
  have := List.rel_of_pairwise_cons h (List.mem_singleton.2 rfl)
  exact this rfl

/-- A bar with prices but no date field. -/
def noDateBar : PriceRecord := ⟨none, some 1, some 1, some 1, some 5⟩

/-- C10 counterexample: a record lacking the `date` field does NOT render
with an empty date — the sort key `x["date"]` raises `KeyError`, the fetch
fails, and the pipeline treats it as fatal. -/
theorem fetch_missing_date_counterexample :
    fetch_spx_ohlc_csv [noDateBar] 30 = .error (.keyError "date") := by decide

/-- C10 (amended): a record missing the `date` field makes the whole fetch
fail with `KeyError` (it is not silently rendered with an empty date), while
a record missing any of the four price fields does not fail: the price
defaults to 0 and renders as `0.00`, and when the most recent retained bar
lacks the close field the returned latest closing price is 0. -/
theorem fetch_missing_fields_spec (historical : List PriceRecord) (days : Nat) :
    (∀ r ∈ historical, r.date = none →
        fetch_spx_ohlc_csv historical days = .error (.keyError "date"))
    ∧ renderBar ⟨some "2024-01-05", none, none, none, none⟩ = "2024-01-05,0.00,0.00,0.00,0.00"
    ∧ (∀ bars r, bars.getLast? = some r → r.closePrice = none → latestClose bars = 0) := by
  refine ⟨?_, by decide, ?_⟩
  · intro r hr hnone
    have h1 : historical.isEmpty = false := by
      cases historical with
      | nil => cases hr
      | cons a t => rfl
    have h2 : historical.any (fun x => x.date.isNone) = true :=
      List.any_eq_true.2 ⟨r, hr, by rw [hnone]; rfl⟩
    unfold fetch_spx_ohlc_csv
    simp [h1, h2]
  · intro bars r h hc
    unfold latestClose
    rw [h]
    show r.closePrice.getD 0 = 0
    rw [hc]
    rfl

theorem fetch_missing_fields_spec_witness :
    fetch_spx_ohlc_csv [noDateBar] 7 = .error (.keyError "date")
    ∧ latestClose [PriceRecord.mk (some "2024-01-06") none none none none] = 0 := by
  constructor
  · exact (fetch_missing_fields_spec [noDateBar] 7).1 noDateBar (by simp) rfl
  · exact (fetch_missing_fields_spec [] 7).2.2
      [PriceRecord.mk (some "2024-01-06") none none none none] _ rfl rfl

/-! ## telegram_sender.py -/

/-- The apostrophe character (code point 39). -/
def aposChar : Char := Char.ofNat 39

/-- `html.escape` (default `quote=True`) on one character. -/
def htmlEscapeChar (c : Char) : List Char :=
  if c = '&' then "&amp;".data
  else if c = '<' then "&lt;".data
  else if c = '>' then "&gt;".data
  else if c = '"' then "&quot;".data
  else if c = aposChar then '&' :: '#' :: 'x' :: '2' :: '7' :: [';']
  else [c]

/-- Python `html.escape(text)` as used by `_normalize_analysis_for_telegram`. -/
def html_escape (s : String) : String :=
  String.mk ((s.data.map htmlEscapeChar).flatten)

/-- Lazy search for the closing `**` of the regex `\*\*(.+?)\*\*`: the
shortest non-empty content followed immediately by `**` (the `.` of the
pattern does not match a newline); returns the content and the text after
the closing marker. -/
def findBoldClose : List Char → Option (List Char × List Char)
  | c :: '*' :: '*' :: rest => if c = '\n' then none else some ([c], rest)
  | c :: rest => if c = '\n' then none else (findBoldClose rest).map (fun p => (c :: p.1, p.2))
  | [] => none

/-- The scan of `re.sub(r"\*\*(.+?)\*\*", r"<b>\1</b>", text)`: at a `**`
with a closing match, substitute and continue after it; at a `**` without
one, emit one character and retry at the next position (regex advance);
fuel equals the remaining length, which every step decreases. -/
def convertBoldAux : Nat → List Char → List Char
  | 0, cs => cs
  | _ + 1, [] => []
  | fuel + 1, '*' :: '*' :: rest =>
      match findBoldClose rest with
      | some (content, rest2) =>
          '<' :: 'b' :: '>' :: (content ++ '<' :: '/' :: 'b' :: '>' :: convertBoldAux fuel rest2)
      | none => '*' :: convertBoldAux fuel ('*' :: rest)
  | fuel + 1, c :: rest => c :: convertBoldAux fuel rest

/-- `telegram_sender._convert_bold_markdown`. -/
def _convert_bold_markdown (text : String) : String :=
  String.mk (convertBoldAux text.data.length text.data)

/-- The canonical bullet prefix constant of `_convert_line`.  The source
file stores the bullet as the three code points U+00E2 U+20AC U+00A2 (the
UTF-8 bytes of U+2022 re-read through cp1252), and CPython decodes the
literal to exactly that three-character string, so the model does too. -/
def bulletPrefix : String := "â€¢ "

/-- `telegram_sender._convert_line`: strip leading whitespace; a leading
`"* "` or `"- "` becomes the canonical bullet prefix with the remainder
stripped; otherwise the original line is bold-converted unchanged. -/
def _convert_line (line : String) : String :=
  let stripped := pyLStrip line
  if "* ".data.isPrefixOf stripped.data || "- ".data.isPrefixOf stripped.data then
    bulletPrefix ++ _convert_bold_markdown (pyStrip (String.mk (stripped.data.drop 2)))
  else _convert_bold_markdown line

/-- `telegram_sender._normalize_analysis_for_telegram`: escape, split into
lines, convert each line, rejoin and strip. -/
def _normalize_analysis_for_telegram (text : String) : String :=
  pyStrip (String.intercalate "\n" ((pySplitlines (html_escape text)).map _convert_line))

/-- `telegram_sender.format_analysis_message`; the impure
`datetime.now().strftime("%Y-%m-%d")` is passed in as `timestamp`. -/
def format_analysis_message (zero_gamma_level : ℚ) (analysis : String)
    (current_price : ℚ) (symbol : String) (timestamp : String) : String :=
  "<b>" ++ symbol ++ " Market Analysis</b>\n" ++
  "<i>" ++ timestamp ++ "</i>\n\n" ++
  "<b>Current Price:</b> $" ++ formatFixed2 current_price ++ "\n" ++
  "<b>Zero Gamma Level:</b> $" ++ formatFixed2 zero_gamma_level ++ "\n\n" ++
  "<b>Analysis:</b>\n" ++ _normalize_analysis_for_telegram analysis

/-- A run of decimal digits possibly containing single underscores between
digits, as Python `int(str)` accepts. -/
def validUnderscoreDigits : List Char → Bool
  | [] => false
  | [c] => c.isDigit
  | c :: d :: rest =>
      if c.isDigit then
        (if d = '_' then
           match rest with
           | e :: _ => e.isDigit && validUnderscoreDigits rest
           | [] => false
         else validUnderscoreDigits (d :: rest))
      else false

/-- Numeric value of a digit run, ignoring underscores. -/
def digitsWithUnderscoreVal (cs : List Char) : Nat :=
  cs.foldl (fun a c => if c = '_' then a else a * 10 + (c.toNat - 48)) 0

/-- Python `int(s)` for base 10: strip whitespace, optional sign, then
digits with optional single underscores between digits; `None` on anything
else (`ValueError` in Python). -/
def pyInt? (s : String) : Option Int :=
  match (pyStrip s).data with
  | '+' :: rest => if validUnderscoreDigits rest then some (digitsWithUnderscoreVal rest) else none
  | '-' :: rest => if validUnderscoreDigits rest then some (-(digitsWithUnderscoreVal rest : Int)) else none
  | rest => if validUnderscoreDigits rest then some (digitsWithUnderscoreVal rest) else none

/-- The outcome of the one network send attempt inside `send_to_telegram`
(`Bot.send_message` via `asyncio.run`): delivery, a `TelegramError`, or any
other exception. -/
inductive TelegramNet where
  | delivered
  | telegramError (msg : String)
  | otherError (msg : String)

/-- `telegram_sender.send_to_telegram`, returning the boolean result paired
with the number of network calls made: parse the chat id with `int()`
(failure logs and returns `False` with no call); parse the optional,
non-empty thread id likewise; then send once, mapping `TelegramError` and
any other exception to `False`. -/
def parseThreadId (message_thread_id : Option String) : Option (Option Int) :=
  match message_thread_id with
  | none => some none
  | some t => if t = "" then some none else (pyInt? t).map some

/-- See `send_to_telegram` below; `parseThreadId` is the
`if message_thread_id:` / `int(message_thread_id)` step (`None` and the
empty string are falsy and mean no topic; an unparsable value is `none`). -/
def send_to_telegram (bot_token chat_id message : String)
    (message_thread_id : Option String) (net : TelegramNet) : Bool × Nat :=
  match pyInt? chat_id with
  | none => (false, 0)
  | some _ =>
      match parseThreadId message_thread_id with
      | none => (false, 0)
      | some _ =>
          match net with
          | .delivered => (true, 1)
          | .telegramError _ => (false, 1)
          | .otherError _ => (false, 1)

/-- C4: the message normalizer escapes markup first, then rewrites bullets
line by line, then rewrites paired `**text**` markers non-greedily to
`<b>...</b>`, leaving unpaired markers as literal text; on the input
`"**Bold** line\n- item one\n* item two"` it produces the bold line followed
by two lines starting with the canonical bullet prefix (the fixed constant
`bulletPrefix` the source uses), and escaping happens before the bold
rewrite (`"**<b>**"` becomes the bold tag around the escaped text). -/
theorem normalize_analysis_spec (t : String) :
    _normalize_analysis_for_telegram t =
      pyStrip (String.intercalate "\n" ((pySplitlines (html_escape t)).map _convert_line))
    ∧ _normalize_analysis_for_telegram "**Bold** line\n- item one\n* item two" =
        "<b>Bold</b> line\n" ++ bulletPrefix ++ "item one\n" ++ bulletPrefix ++ "item two"
    ∧ _normalize_analysis_for_telegram "**<b>**" = "<b>&lt;b&gt;</b>"
    ∧ _convert_bold_markdown "a ** b" = "a ** b"
    ∧ _convert_bold_markdown "**x** and **" = "<b>x</b> and **" := by
  refine ⟨rfl, by decide, by decide, by decide, by decide⟩

/-- C7: the dispatch client returns a boolean and never lets a destination
exception escape — a `TelegramError` or any other exception from the send
attempt yields `false`, `true` arises only from actual delivery — and an
unparsable chat id, or an unparsable non-empty thread id (such as `"abc"`
for either), yields `false` with zero network calls. -/
theorem send_to_telegram_spec (bot chat msg : String) (thr : Option String)
    (net : TelegramNet) :
    (pyInt? chat = none → send_to_telegram bot chat msg thr net = (false, 0))
    ∧ (∀ t, thr = some t → t ≠ "" → pyInt? t = none →
        send_to_telegram bot chat msg thr net = (false, 0))
    ∧ (∀ e, net = .telegramError e → (send_to_telegram bot chat msg thr net).1 = false)
    ∧ (∀ e, net = .otherError e → (send_to_telegram bot chat msg thr net).1 = false)
    ∧ ((send_to_telegram bot chat msg thr net).1 = true → net = .delivered)
    ∧ pyInt? "abc" = none := by
  refine ⟨?_, ?_, ?_, ?_, ?_, by decide⟩
  · intro h
    unfold send_to_telegram
    rw [h]
  · intro t ht htne hpt
    subst ht
    unfold send_to_telegram
    cases pyInt? chat with
    | none => rfl
    | some v =>
        have hthread : parseThreadId (some t) = none := by
          simp only [parseThreadId]
          rw [if_neg htne, hpt]
          rfl
        rw [hthread]
  · intro e he
    subst he
    unfold send_to_telegram
    cases pyInt? chat with
    | none => rfl
    | some v =>
        cases parseThreadId thr with
        | none => rfl
        | some w => rfl
  · intro e he
    subst he
    unfold send_to_telegram
    cases pyInt? chat with
    | none => rfl
    | some v =>
        cases parseThreadId thr with
        | none => rfl
        | some w => rfl
  · intro h
    cases net with
    | delivered => rfl
    | telegramError e =>
        unfold send_to_telegram at h
        cases hc : pyInt? chat with
        | none => rw [hc] at h; simp at h
        | some v =>
            rw [hc] at h
            cases hp : parseThreadId thr with
            | none => rw [hp] at h; simp at h
            | some w => rw [hp] at h; simp at h
    | otherError e =>
        unfold send_to_telegram at h
        cases hc : pyInt? chat with
        | none => rw [hc] at h; simp at h
        | some v =>
            rw [hc] at h
            cases hp : parseThreadId thr with
            | none => rw [hp] at h; simp at h
            | some w => rw [hp] at h; simp at h

theorem send_to_telegram_spec_witness :
    send_to_telegram "t" "abc" "m" none TelegramNet.delivered = (false, 0)
    ∧ send_to_telegram "t" "5" "m" (some "abc") TelegramNet.delivered = (false, 0)
    ∧ (send_to_telegram "t" "5" "m" none (TelegramNet.telegramError "boom")).1 = false := by
  refine ⟨?_, ?_, ?_⟩
  · exact (send_to_telegram_spec "t" "abc" "m" none .delivered).1 (by decide)
  · exact (send_to_telegram_spec "t" "5" "m" (some "abc") .delivered).2.1 "abc" rfl
      (by decide) (by decide)
  · exact (send_to_telegram_spec "t" "5" "m" none (.telegramError "boom")).2.2.1 "boom" rfl

/-! ## openrouter_analysis.py -/

/-- The prompt `analyze_with_openrouter` builds (the f-string, with `{{`/`}}`
denoting literal braces in the source). -/
def openrouterPromptTail (zero_gamma_level : ℚ) (ohlc_csv : String) : String :=
  ":\n\nZero Gamma Level: $" ++ formatFixed2 zero_gamma_level ++
  "\n\nRecent 30-Day OHLC Data:\n" ++ ohlc_csv ++
  "\n\n    Return ONLY a JSON object with these fields:\n    \x7b\n        \"zero_gamma_significance\": \"string\",\n        \"trend\": \"string\",\n        \"implications\": [\"string\", \"string\", \"string\"]\n    \x7d\n\n    Constraints:\n    - Max 120 words total across all fields\n    - Use short, direct sentences\n    - No headers, no extra keys, no Markdown\n    - The implications array should contain 2-4 short bullets"

/-- The full prompt of `analyze_with_openrouter`. -/
def openrouterPrompt (symbol : String) (zero_gamma_level : ℚ) (ohlc_csv : String) : String :=
  "Analyze the following market data for " ++ symbol ++
  openrouterPromptTail zero_gamma_level ohlc_csv

/-- The validation `isinstance(x, str) and x.strip()` used for the
`zero_gamma_significance` and `trend` fields: the trimmed-non-empty string
value, or `none`. -/
def reqNonemptyStr (v : Option JsonVal) : Option String :=
  match v with
  | some (.str s) => if pyStrip s = "" then none else some s
  | _ => none

/-- The bullet loop of `_format_structured_analysis`: keep only string items
that are non-empty after trimming, each rendered as `"- " + item.strip()`. -/
def bulletLines (implications : List JsonVal) : List String :=
  implications.filterMap (fun item =>
    match item with
    | .str s => if pyStrip s = "" then none else some ("- " ++ pyStrip s)
    | _ => none)

/-- The validation `isinstance(implications, list) and implications` (both
failures share one error message in the source): the non-empty list value,
or `none`. -/
def reqNonemptyList (v : Option JsonVal) : Option (List JsonVal) :=
  match v with
  | some (.arr l) => if l.isEmpty then none else some l
  | _ => none

/-- `openrouter_analysis._format_structured_analysis`, as a function of the
parsed JSON object (the `json.loads` step is the caller's): validate the
three fields in source order and render the labelled block. -/
def _format_structured_analysis (payload : List (String × JsonVal)) : Except PyExn String :=
  match reqNonemptyStr (jdictGet payload "zero_gamma_significance") with
  | none => .error (.valueError "Missing or invalid zero_gamma_significance")
  | some zero_gamma =>
      match reqNonemptyStr (jdictGet payload "trend") with
      | none => .error (.valueError "Missing or invalid trend")
      | some trend =>
          match reqNonemptyList (jdictGet payload "implications") with
          | none => .error (.valueError "Missing or invalid implications list")
          | some implications =>
              if (bulletLines implications).isEmpty then
                .error (.valueError "Implications list contained no valid items")
              else
                .ok ("**Zero Gamma**: " ++ pyStrip zero_gamma ++
                     "\n**Trend**: " ++ pyStrip trend ++
                     "\n**Implications**:\n" ++
                     String.intercalate "\n" (bulletLines implications))

/-- What the spec calls a valid structured narrative: significance and trend
are strings that are non-empty after trimming, and implications is a
non-empty list in which at least one item survives the filter. -/
def ValidNarrative (payload : List (String × JsonVal)) : Prop :=
  (∃ s, jdictGet payload "zero_gamma_significance" = some (.str s) ∧ pyStrip s ≠ "")
  ∧ (∃ s, jdictGet payload "trend" = some (.str s) ∧ pyStrip s ≠ "")
  ∧ (∃ l, jdictGet payload "implications" = some (.arr l) ∧ l ≠ [] ∧ bulletLines l ≠ [])

/-- The example narrative of the spec: implications `["a", "", "  b  "]`. -/
def narrativeExample : List (String × JsonVal) :=
  [("zero_gamma_significance", .str "sig"), ("trend", .str "up"),
   ("implications", .arr [.str "a", .str "", .str "  b  "])]

theorem reqNonemptyStr_some {v : Option JsonVal} {s : String}
    (h : reqNonemptyStr v = some s) : v = some (.str s) ∧ pyStrip s ≠ "" := by
  match v with
  | none => exact absurd h (by simp [reqNonemptyStr])
  | some .null => exact absurd h (by simp [reqNonemptyStr])
  | some (.bool b) => exact absurd h (by simp [reqNonemptyStr])
  | some (.num q) => exact absurd h (by simp [reqNonemptyStr])
  | some (.arr l) => exact absurd h (by simp [reqNonemptyStr])
  | some (.obj l) => exact absurd h (by simp [reqNonemptyStr])
  | some (.str t) =>
      simp only [reqNonemptyStr] at h
      by_cases he : pyStrip t = ""
      · rw [if_pos he] at h
        cases h
      · rw [if_neg he] at h
        cases h
        exact ⟨rfl, he⟩

theorem reqNonemptyStr_of_valid {v : Option JsonVal} {s : String}
    (h : v = some (.str s)) (hne : pyStrip s ≠ "") : reqNonemptyStr v = some s := by
  rw [h]
  simp only [reqNonemptyStr]
  rw [if_neg hne]

theorem reqNonemptyList_some {v : Option JsonVal} {l : List JsonVal}
    (h : reqNonemptyList v = some l) : v = some (.arr l) ∧ l ≠ [] := by
  match v with
  | none => exact absurd h (by simp [reqNonemptyList])
  | some .null => exact absurd h (by simp [reqNonemptyList])
  | some (.bool b) => exact absurd h (by simp [reqNonemptyList])
  | some (.num q) => exact absurd h (by simp [reqNonemptyList])
  | some (.str t) => exact absurd h (by simp [reqNonemptyList])
  | some (.obj f) => exact absurd h (by simp [reqNonemptyList])
  | some (.arr m) =>
      simp only [reqNonemptyList] at h
      by_cases he : m.isEmpty
      · rw [if_pos he] at h
        cases h
      · rw [if_neg he] at h
        cases h
        refine ⟨rfl, ?_⟩
        intro hnil
        exact he (by rw [hnil]; rfl)

theorem reqNonemptyList_of_valid {v : Option JsonVal} {l : List JsonVal}
    (h : v = some (.arr l)) (hne : l ≠ []) : reqNonemptyList v = some l := by
  rw [h]
  simp only [reqNonemptyList]
  rw [if_neg (by cases l with | nil => exact absurd rfl hne | cons a t => simp)]

/-- C5: the structured validator accepts a narrative object exactly when the
significance and trend fields are strings that are non-empty after trimming
and the implications field is a non-empty list with at least one item
surviving the filter (string items non-empty after trimming); the rendered
block lists each surviving item, trimmed, as one `"- "` bullet; on
implications `["a", "", "  b  "]` exactly the two trimmed bullets `- a` and
`- b` remain. -/
theorem format_structured_spec (payload : List (String × JsonVal)) :
    ((∃ out, _format_structured_analysis payload = .ok out) ↔ ValidNarrative payload)
    ∧ (∀ out, _format_structured_analysis payload = .ok out →
        ∃ zg tr l, jdictGet payload "zero_gamma_significance" = some (.str zg)
          ∧ jdictGet payload "trend" = some (.str tr)
          ∧ jdictGet payload "implications" = some (.arr l)
          ∧ out = "**Zero Gamma**: " ++ pyStrip zg ++ "\n**Trend**: " ++ pyStrip tr ++
              "\n**Implications**:\n" ++ String.intercalate "\n" (bulletLines l))
    ∧ _format_structured_analysis narrativeExample =
        .ok "**Zero Gamma**: sig\n**Trend**: up\n**Implications**:\n- a\n- b"
    ∧ bulletLines [.str "a", .str "", .str "  b  "] = ["- a", "- b"] := by
  refine ⟨⟨?_, ?_⟩, ?_, by decide, by decide⟩
  · rintro ⟨out, h⟩
    unfold _format_structured_analysis at h
    cases hzg : reqNonemptyStr (jdictGet payload "zero_gamma_significance") with
    | none => rw [hzg] at h; cases h
    | some zg =>
        rw [hzg] at h
        cases htr : reqNonemptyStr (jdictGet payload "trend") with
        | none => rw [htr] at h; cases h
        | some tr =>
            rw [htr] at h
            cases himp : reqNonemptyList (jdictGet payload "implications") with
            | none => rw [himp] at h; cases h
            | some l =>
                rw [himp] at h
                have h2 : (if (bulletLines l).isEmpty = true then
                    (.error (.valueError "Implications list contained no valid items") :
                      Except PyExn String)
                  else .ok ("**Zero Gamma**: " ++ pyStrip zg ++ "\n**Trend**: " ++ pyStrip tr ++
                      "\n**Implications**:\n" ++ String.intercalate "\n" (bulletLines l))) =
                    .ok out := h
                by_cases hb : (bulletLines l).isEmpty
                · rw [if_pos hb] at h2; cases h2
                · obtain ⟨hv1, hne1⟩ := reqNonemptyStr_some hzg
                  obtain ⟨hv2, hne2⟩ := reqNonemptyStr_some htr
                  obtain ⟨hv3, hne3⟩ := reqNonemptyList_some himp
                  exact ⟨⟨zg, hv1, hne1⟩, ⟨tr, hv2, hne2⟩,
                    ⟨l, hv3, hne3, fun hnil => hb (by rw [hnil]; rfl)⟩⟩
  · rintro ⟨⟨zg, hv1, hne1⟩, ⟨tr, hv2, hne2⟩, ⟨l, hv3, hlne, hbne⟩⟩
    refine ⟨"**Zero Gamma**: " ++ pyStrip zg ++ "\n**Trend**: " ++ pyStrip tr ++
      "\n**Implications**:\n" ++ String.intercalate "\n" (bulletLines l), ?_⟩
    unfold _format_structured_analysis
    rw [reqNonemptyStr_of_valid hv1 hne1, reqNonemptyStr_of_valid hv2 hne2,
        reqNonemptyList_of_valid hv3 hlne]
    show (if (bulletLines l).isEmpty = true then
        (.error (.valueError "Implications list contained no valid items") : Except PyExn String)
      else .ok ("**Zero Gamma**: " ++ pyStrip zg ++ "\n**Trend**: " ++ pyStrip tr ++
          "\n**Implications**:\n" ++ String.intercalate "\n" (bulletLines l))) =
      .ok ("**Zero Gamma**: " ++ pyStrip zg ++ "\n**Trend**: " ++ pyStrip tr ++
          "\n**Implications**:\n" ++ String.intercalate "\n" (bulletLines l))
    rw [if_neg (by cases hbl : bulletLines l with
        | nil => exact absurd hbl hbne
        | cons a t => simp [hbl])]
  · intro out h
    unfold _format_structured_analysis at h
    cases hzg : reqNonemptyStr (jdictGet payload "zero_gamma_significance") with
    | none => rw [hzg] at h; cases h
    | some zg =>
        rw [hzg] at h
        cases htr : reqNonemptyStr (jdictGet payload "trend") with
        | none => rw [htr] at h; cases h
        | some tr =>
            rw [htr] at h
            cases himp : reqNonemptyList (jdictGet payload "implications") with
            | none => rw [himp] at h; cases h
            | some l =>
                rw [himp] at h
                have h2 : (if (bulletLines l).isEmpty = true then
                    (.error (.valueError "Implications list contained no valid items") :
                      Except PyExn String)
                  else .ok ("**Zero Gamma**: " ++ pyStrip zg ++ "\n**Trend**: " ++ pyStrip tr ++
                      "\n**Implications**:\n" ++ String.intercalate "\n" (bulletLines l))) =
                    .ok out := h
                by_cases hb : (bulletLines l).isEmpty
                · rw [if_pos hb] at h2; cases h2
                · rw [if_neg hb] at h2
                  obtain ⟨hv1, _⟩ := reqNonemptyStr_some hzg
                  obtain ⟨hv2, _⟩ := reqNonemptyStr_some htr
                  obtain ⟨hv3, _⟩ := reqNonemptyList_some himp
                  cases h2
                  exact ⟨zg, tr, l, hv1, hv2, hv3, rfl⟩

theorem format_structured_spec_witness :
    ∃ zg tr l, jdictGet narrativeExample "zero_gamma_significance" = some (.str zg)
      ∧ jdictGet narrativeExample "trend" = some (.str tr)
      ∧ jdictGet narrativeExample "implications" = some (.arr l)
      ∧ ("**Zero Gamma**: sig\n**Trend**: up\n**Implications**:\n- a\n- b" : String) =
          "**Zero Gamma**: " ++ pyStrip zg ++ "\n**Trend**: " ++ pyStrip tr ++
          "\n**Implications**:\n" ++ String.intercalate "\n" (bulletLines l) :=
  (format_structured_spec narrativeExample).2.1 _ (by decide)

/-! ## send_analysis.py: metric fetch and orchestration -/

/-- Numeric value of a run of decimal digits. -/
def digitsVal (cs : List Char) : Nat :=
  cs.foldl (fun a c => a * 10 + (c.toNat - 48)) 0

/-- The exponent part of a Python float literal. -/
def parseExpPart : List Char → Option Int
  | '+' :: rest =>
      if !rest.isEmpty && rest.all Char.isDigit then some (digitsVal rest) else none
  | '-' :: rest =>
      if !rest.isEmpty && rest.all Char.isDigit then some (-(digitsVal rest : Int)) else none
  | rest =>
      if !rest.isEmpty && rest.all Char.isDigit then some (digitsVal rest) else none

/-- The unsigned part of a Python float literal: digits, an optional decimal
point with digits, an optional exponent. -/
def pyParseFloatBody (sign : ℚ) (u : List Char) : Option ℚ :=
  match u.dropWhile Char.isDigit with
  | [] =>
      if (u.takeWhile Char.isDigit).isEmpty then none
      else some (sign * digitsVal (u.takeWhile Char.isDigit))
  | '.' :: r2 =>
      if (u.takeWhile Char.isDigit).isEmpty && (r2.takeWhile Char.isDigit).isEmpty then none
      else
        match r2.dropWhile Char.isDigit with
        | [] => some (sign * (digitsVal (u.takeWhile Char.isDigit) +
            (digitsVal (r2.takeWhile Char.isDigit) : ℚ) /
              (10 : ℚ) ^ (r2.takeWhile Char.isDigit).length))
        | e :: r3 =>
            if e = 'e' || e = 'E' then
              (parseExpPart r3).map (fun ex =>
                sign * (digitsVal (u.takeWhile Char.isDigit) +
                  (digitsVal (r2.takeWhile Char.isDigit) : ℚ) /
                    (10 : ℚ) ^ (r2.takeWhile Char.isDigit).length) * (10 : ℚ) ^ ex)
            else none
  | e :: r3 =>
      if (e = 'e' || e = 'E') && !(u.takeWhile Char.isDigit).isEmpty then
        (parseExpPart r3).map (fun ex =>
          sign * digitsVal (u.takeWhile Char.isDigit) * (10 : ℚ) ^ ex)
      else none

/-- Python `float(str)` restricted to finite decimal/exponent literals (the
forms a JSON metric value can take; `inf`/`nan` have no rational model). -/
def pyParseFloat (s : String) : Option ℚ :=
  match (pyStrip s).data with
  | '+' :: r => pyParseFloatBody 1 r
  | '-' :: r => pyParseFloatBody (-1) r
  | r => pyParseFloatBody 1 r

/-- Python `float(x)` on a parsed JSON value. -/
def pyFloatVal : JsonVal → Except PyExn ℚ
  | .num q => .ok q
  | .bool b => .ok (if b then 1 else 0)
  | .str s =>
      match pyParseFloat s with
      | some q => .ok q
      | none => .error (.valueError "could not convert string to float")
  | _ => .error (.typeError "float() argument must be a string or a real number")

/-- Substring test on character lists (Python `in` for strings). -/
def listContainsSub (needle hay : List Char) : Bool :=
  (List.range (hay.length + 1)).any (fun i => needle.isPrefixOf (hay.drop i))

/-- Python `key in row` for a parsed JSON value: dict-key membership, list
membership by equality, substring test on strings, `TypeError` otherwise. -/
def pyContainsKey (row : JsonVal) (key : String) : Except PyExn Bool :=
  match row with
  | .obj fields => .ok (jdictHas fields key)
  | .arr l => .ok (l.any (fun v => match v with | .str s => s = key | _ => false))
  | .str s => .ok (listContainsSub key.data s.data)
  | _ => .error (.typeError "argument of type is not iterable")

/-- Python `row.get(key, default)`: only dicts have `.get`
(`AttributeError` otherwise). -/
def pyDictGetD (row : JsonVal) (key : String) (default : JsonVal) : Except PyExn JsonVal :=
  match row with
  | .obj fields => .ok ((jdictGet fields key).getD default)
  | _ => .error (.attributeError "get")

/-- Python `row[key]` with a string key: dict lookup (`KeyError` when
absent), `TypeError` for any non-dict. -/
def pyIndexStr (row : JsonVal) (key : String) : Except PyExn JsonVal :=
  match row with
  | .obj fields =>
      match jdictGet fields key with
      | some v => .ok v
      | none => .error (.keyError key)
  | _ => .error (.typeError "indices must be integers")

/-- `send_analysis.ZeroGammaLevel` (the frozen dataclass; `sym` and
`trade_date` hold whatever `row.get` returned). -/
structure ZeroGammaLevel where
  sym : JsonVal
  trade_date : JsonVal
  zero_g_strike : ℚ
  source_url : String

/-- `LEVELS_URL.format(sym=sym)`. -/
def LEVELS_URL_format (sym : String) : String :=
  "https://api.spotgamma.com/v2/levelsBySym?sym=" ++ sym

/-- The outcome of the one `requests.get` in `fetch_zerogamma_level`. -/
inductive HttpOutcome where
  | timeout
  | connectionError (msg : String)
  | response (status : Nat) (body : JsonVal)

/-- The body processing of `fetch_zerogamma_level` after a 2xx response:
require a non-empty JSON array, require the first element to contain
`zero_g_strike`, then build the dataclass (keyword arguments evaluate left
to right: `row.get("sym", sym)`, `row.get("trade_date", "")`, then
`float(row["zero_g_strike"])`). -/
def parseZeroGammaBody (sym url : String) (data : JsonVal) : Except PyExn ZeroGammaLevel :=
  match data with
  | .arr (row :: _) => do
      let hasKey ← pyContainsKey row "zero_g_strike"
      if !hasKey then
        throw (.valueError "Response missing \x27zero_g_strike\x27")
      else do
        let symVal ← pyDictGetD row "sym" (.str sym)
        let tdVal ← pyDictGetD row "trade_date" (.str "")
        let v ← pyIndexStr row "zero_g_strike"
        let strike ← pyFloatVal v
        pure { sym := symVal, trade_date := tdVal, zero_g_strike := strike, source_url := url }
  | _ => .error (.valueError "Unexpected response shape (expected non-empty list)")

/-- `send_analysis.fetch_zerogamma_level`, as a function of the HTTP
outcome: `Timeout` and connection errors re-raise; `raise_for_status`
raises for status 400-599; otherwise the body is parsed. -/
def fetch_zerogamma_level (sym : String) (resp : HttpOutcome) : Except PyExn ZeroGammaLevel :=
  match resp with
  | .timeout => .error .timeout
  | .connectionError m => .error (.requestException m)
  | .response status body =>
      if 400 ≤ status ∧ status < 600 then .error (.httpError status)
      else parseZeroGammaBody sym (LEVELS_URL_format sym) body

/-- The five effectful steps of `run_analysis_pipeline`, as oracles: each
Python call either returns a value or raises (`Except`); the dispatch step
returns a plain `bool` because `send_to_telegram` catches everything. -/
structure PipelineOracle where
  fetch_zerogamma_level : String → Except PyExn ZeroGammaLevel
  fetch_spx_ohlc_csv : Except PyExn (String × ℚ)
  analyze_with_openrouter : ℚ → String → String → Except PyExn String
  format_analysis_message : ℚ → String → ℚ → String → Except PyExn String
  send_to_telegram : String → Bool

/-- `send_analysis.run_analysis_pipeline`: the four fatal steps run inside
one `try` whose handler returns `False`; the dispatch result feeds an
`if success: return True else: return True`. -/
def run_analysis_pipeline (o : PipelineOracle) (symbol : String) : Bool :=
  match o.fetch_zerogamma_level symbol with
  | .error _ => false
  | .ok zero_gamma_level =>
      match o.fetch_spx_ohlc_csv with
      | .error _ => false
      | .ok (ohlc_csv, current_price) =>
          match o.analyze_with_openrouter zero_gamma_level.zero_g_strike ohlc_csv symbol with
          | .error _ => false
          | .ok analysis =>
              match o.format_analysis_message zero_gamma_level.zero_g_strike analysis
                  current_price symbol with
              | .error _ => false
              | .ok message =>
                  if o.send_to_telegram message then true else true

/-- The first four (fatal) pipeline steps all succeed. -/
def PipelineFirstFourOk (o : PipelineOracle) (symbol : String) : Prop :=
  ∃ lvl csvp analysis msg,
    o.fetch_zerogamma_level symbol = .ok lvl
    ∧ o.fetch_spx_ohlc_csv = .ok csvp
    ∧ o.analyze_with_openrouter lvl.zero_g_strike csvp.1 symbol = .ok analysis
    ∧ o.format_analysis_message lvl.zero_g_strike analysis csvp.2 symbol = .ok msg

theorem jdictHas_eq_isSome (fields : List (String × JsonVal)) (k : String) :
    jdictHas fields k = (jdictGet fields k).isSome := by
  induction fields with
  | nil => rfl
  | cons p rest ih =>
      obtain ⟨key, v⟩ := p
      by_cases h : key = k
      · simp [jdictHas, jdictGet, h]
      · simpa [jdictHas, jdictGet, h] using ih

theorem parse_nonobj_row_error (sym url : String) (row : JsonVal) (rest : List JsonVal)
    (hrow : ∀ fields, row ≠ .obj fields) :
    ∃ e, parseZeroGammaBody sym url (.arr (row :: rest)) = .error e := by
  cases row with
  | obj fields => exact absurd rfl (hrow fields)
  | null => exact ⟨_, rfl⟩
  | bool b => exact ⟨_, rfl⟩
  | num q => exact ⟨_, rfl⟩
  | str t =>
      simp only [parseZeroGammaBody]
      cases pyContainsKey (.str t) "zero_g_strike" with
      | error e => exact ⟨e, rfl⟩
      | ok b =>
          cases b
          · exact ⟨_, rfl⟩
          · exact ⟨_, rfl⟩
  | arr l =>
      simp only [parseZeroGammaBody]
      cases pyContainsKey (.arr l) "zero_g_strike" with
      | error e => exact ⟨e, rfl⟩
      | ok b =>
          cases b
          · exact ⟨_, rfl⟩
          · exact ⟨_, rfl⟩

/-- C6: with a 2xx status, a response body that is not a non-empty JSON
array fails with the malformed-shape `ValueError`; a first element that
lacks the `zero_g_strike` key fails with the missing-field `ValueError`; a
first element that is not even an object also fails with some exception —
the fetch never silently returns a default value; and a first element
carrying a numeric `zero_g_strike` yields a level whose strike is exactly
that number. -/
theorem fetch_zerogamma_spec (sym : String) (status : Nat) (body : JsonVal)
    (hstatus : status < 400) :
    ((∀ row rest, body ≠ .arr (row :: rest)) →
        fetch_zerogamma_level sym (.response status body) =
          .error (.valueError "Unexpected response shape (expected non-empty list)"))
    ∧ (∀ fields rest, body = .arr (.obj fields :: rest) →
        jdictHas fields "zero_g_strike" = false →
        fetch_zerogamma_level sym (.response status body) =
          .error (.valueError "Response missing \x27zero_g_strike\x27"))
    ∧ (∀ row rest, body = .arr (row :: rest) → (∀ fields, row ≠ .obj fields) →
        ∃ e, fetch_zerogamma_level sym (.response status body) = .error e)
    ∧ (∀ fields rest q, body = .arr (.obj fields :: rest) →
        jdictGet fields "zero_g_strike" = some (.num q) →
        ∃ lvl, fetch_zerogamma_level sym (.response status body) = .ok lvl
          ∧ lvl.zero_g_strike = q) := by
  refine ⟨?_, ?_, ?_, ?_⟩
  · intro hshape
    simp only [fetch_zerogamma_level]
    rw [if_neg (by omega : ¬ (400 ≤ status ∧ status < 600))]
    unfold parseZeroGammaBody
    cases body with
    | arr l =>
        cases l with
        | nil => rfl
        | cons row rest => exact absurd rfl (hshape row rest)
    | null => rfl
    | bool b => rfl
    | num q => rfl
    | str s => rfl
    | obj f => rfl
  · intro fields rest hbody hhas
    subst hbody
    simp only [fetch_zerogamma_level]
    rw [if_neg (by omega : ¬ (400 ≤ status ∧ status < 600))]
    unfold parseZeroGammaBody
    simp only [pyContainsKey, hhas]
    rfl
  · intro row rest hbody hrow
    subst hbody
    simp only [fetch_zerogamma_level]
    rw [if_neg (by omega : ¬ (400 ≤ status ∧ status < 600))]
    exact parse_nonobj_row_error sym (LEVELS_URL_format sym) row rest hrow
  · intro fields rest q hbody hget
    subst hbody
    simp only [fetch_zerogamma_level]
    rw [if_neg (by omega : ¬ (400 ≤ status ∧ status < 600))]
    unfold parseZeroGammaBody
    have hhas : jdictHas fields "zero_g_strike" = true := by
      rw [jdictHas_eq_isSome, hget]
      rfl
    refine ⟨⟨(jdictGet fields "sym").getD (.str sym),
             (jdictGet fields "trade_date").getD (.str ""),
             q, LEVELS_URL_format sym⟩, ?_, rfl⟩
    simp only [pyContainsKey, hhas, pyDictGetD, pyIndexStr, hget, pyFloatVal]
    rfl

theorem fetch_zerogamma_spec_witness :
    fetch_zerogamma_level "SPX" (.response 200 (.arr [])) =
      .error (.valueError "Unexpected response shape (expected non-empty list)")
    ∧ fetch_zerogamma_level "SPX" (.response 200 (.arr [.obj []])) =
      .error (.valueError "Response missing \x27zero_g_strike\x27")
    ∧ (∃ e, fetch_zerogamma_level "SPX" (.response 200 (.arr [.num 7])) = .error e)
    ∧ ∃ lvl, fetch_zerogamma_level "SPX"
          (.response 200 (.arr [.obj [("zero_g_strike", .num 4500)]])) = .ok lvl
        ∧ lvl.zero_g_strike = 4500 := by
  refine ⟨?_, ?_, ?_, ?_⟩
  · exact (fetch_zerogamma_spec "SPX" 200 (.arr []) (by omega)).1
      (by intro row rest h; exact absurd (JsonVal.arr.inj h) (by simp))
  · exact (fetch_zerogamma_spec "SPX" 200 (.arr [.obj []]) (by omega)).2.1 [] [] rfl rfl
  · exact (fetch_zerogamma_spec "SPX" 200 (.arr [.num 7]) (by omega)).2.2.1 (.num 7) [] rfl
      (by intro fields h; cases h)
  · exact (fetch_zerogamma_spec "SPX" 200 (.arr [.obj [("zero_g_strike", .num 4500)]])
      (by omega)).2.2.2 [("zero_g_strike", .num 4500)] [] 4500 rfl rfl

/-- A pipeline oracle on which every fatal step succeeds and the dispatch
step reports a delivery failure. -/
def okOracle : PipelineOracle where
  fetch_zerogamma_level := fun _ => .ok ⟨.str "SPX", .str "2024-01-02", 4500, "url"⟩
  fetch_spx_ohlc_csv := .ok ("csv", 5000)
  analyze_with_openrouter := fun _ _ _ => .ok "analysis"
  format_analysis_message := fun _ _ _ _ => .ok "msg"
  send_to_telegram := fun _ => false

theorem run_analysis_pipeline_eq_true_iff (o : PipelineOracle) (symbol : String) :
    run_analysis_pipeline o symbol = true ↔ PipelineFirstFourOk o symbol := by
  unfold run_analysis_pipeline PipelineFirstFourOk
  cases h1 : o.fetch_zerogamma_level symbol with
  | error e => simp [h1]
  | ok lvl =>
      cases h2 : o.fetch_spx_ohlc_csv with
      | error e => simp [h1, h2]
      | ok csvp =>
          obtain ⟨csv, price⟩ := csvp
          show (match o.analyze_with_openrouter lvl.zero_g_strike csv symbol with
                | .error _ => false
                | .ok analysis =>
                    match o.format_analysis_message lvl.zero_g_strike analysis price symbol with
                    | .error _ => false
                    | .ok message => if o.send_to_telegram message then true else true) = true
            ↔ _
          cases h3 : o.analyze_with_openrouter lvl.zero_g_strike csv symbol with
          | error e => simp [h1, h2, h3]
          | ok analysis =>
              show (match o.format_analysis_message lvl.zero_g_strike analysis price symbol with
                    | .error _ => false
                    | .ok message => if o.send_to_telegram message then true else true) = true
                ↔ _
              cases h4 : o.format_analysis_message lvl.zero_g_strike analysis price symbol with
              | error e => simp [h1, h2, h3, h4]
              | ok msg =>
                  show (if o.send_to_telegram msg then true else true) = true ↔ _
                  constructor
                  · intro _
                    exact ⟨lvl, (csv, price), analysis, msg, rfl, rfl, h3, h4⟩
                  · intro _
                    cases o.send_to_telegram msg <;> rfl

/-- C1: the pipeline reports success exactly when the four fatal steps
(metric fetch, price-history fetch, narrative, formatting) all succeed; the
dispatch outcome never changes the result, so a Telegram delivery failure
still yields overall success, while an exception in any of the first four
steps yields failure. -/
theorem run_analysis_pipeline_spec (o : PipelineOracle) (symbol : String) :
    (run_analysis_pipeline o symbol = true ↔ PipelineFirstFourOk o symbol)
    ∧ (PipelineFirstFourOk o symbol →
        run_analysis_pipeline { o with send_to_telegram := fun _ => false } symbol = true)
    ∧ ∀ send, run_analysis_pipeline { o with send_to_telegram := send } symbol =
        run_analysis_pipeline o symbol := by
  refine ⟨run_analysis_pipeline_eq_true_iff o symbol, ?_, ?_⟩
  · intro h
    exact (run_analysis_pipeline_eq_true_iff
      { o with send_to_telegram := fun _ => false } symbol).2 h
  intro send
  have ha := run_analysis_pipeline_eq_true_iff { o with send_to_telegram := send } symbol
  have hb := run_analysis_pipeline_eq_true_iff o symbol
  have hfix : PipelineFirstFourOk { o with send_to_telegram := send } symbol ↔
      PipelineFirstFourOk o symbol := Iff.rfl
  cases hA : run_analysis_pipeline { o with send_to_telegram := send } symbol with
  | true =>
      cases hB : run_analysis_pipeline o symbol with
      | true => rfl
      | false =>
          exfalso
          rw [hA] at ha
          rw [hB] at hb
          have := hb.2 (hfix.1 (ha.1 rfl))
          cases this
  | false =>
      cases hB : run_analysis_pipeline o symbol with
      | false => rfl
      | true =>
          exfalso
          rw [hA] at ha
          rw [hB] at hb
          have := ha.2 (hfix.2 (hb.1 rfl))
          cases this

theorem run_analysis_pipeline_spec_witness :
    PipelineFirstFourOk okOracle "SPX"
    ∧ run_analysis_pipeline { okOracle with send_to_telegram := fun _ => false } "SPX" = true := by
  have hok : PipelineFirstFourOk okOracle "SPX" := ⟨_, _, _, _, rfl, rfl, rfl, rfl⟩
  exact ⟨hok, (run_analysis_pipeline_spec okOracle "SPX").2.1 hok⟩

/-- C9: the price-history request always queries the hardcoded ticker
`^GSPC` — its parameters do not depend on the pipeline symbol at all (the
embedded request builder takes no symbol) — while the symbol argument does
flow into the metric URL, the prompt header and the outbound message
header. -/
theorem price_fetch_symbol_spec (api_key : String) (days today : Nat)
    (symbol csv analysis stamp : String) (zg price : ℚ) :
    List.lookup "symbol" (fmp_request_params api_key days today) = some fmpSymbol
    ∧ fmpSymbol = "^GSPC"
    ∧ LEVELS_URL_format symbol = "https://api.spotgamma.com/v2/levelsBySym?sym=" ++ symbol
    ∧ openrouterPrompt symbol zg csv =
        "Analyze the following market data for " ++ symbol ++ openrouterPromptTail zg csv
    ∧ ∃ rest, format_analysis_message zg analysis price symbol stamp =
        "<b>" ++ symbol ++ rest := by
  refine ⟨rfl, rfl, rfl, rfl, ?_⟩
  refine ⟨" Market Analysis</b>\n" ++ "<i>" ++ stamp ++ "</i>\n\n" ++
    "<b>Current Price:</b> $" ++ formatFixed2 price ++ "\n" ++
    "<b>Zero Gamma Level:</b> $" ++ formatFixed2 zg ++ "\n\n" ++
    "<b>Analysis:</b>\n" ++ _normalize_analysis_for_telegram analysis, ?_⟩
  simp only [format_analysis_message, string_append_assoc]
